import Mathlib

/-!
Verification of the resource-aware chaos-test orchestration subsystem
(src/scripts/resource_utils.py and src/scripts/enhanced_chaos_demo.py).

The Python code is shallowly embedded: OS-level observations (psutil
samples, process poll results, wall-clock driven loop admission,
availability of the external stress-ng binary) are supplied by an
explicit environment record, while every branch, threshold comparison
and log emission of the Python functions is translated literally.
Floating point values from psutil are modelled as rationals; emitted
log lines, resource logs, signals and sleeps are recorded as a trace of
structured events.
-/

namespace SlonanaChaos

/-- A Python exception value escaping a call (only the identity of the
exception matters for the control flow that is modelled). -/
structure PyErr where
  msg : String
deriving DecidableEq, Repr

/-- Result of psutil.virtual_memory(), converted to MB as in
ResourceMonitor.get_memory_info (resource_utils.py lines 35-43). -/
structure MemInfo where
  total_mb : ℚ
  available_mb : ℚ
  used_mb : ℚ
  percent_used : ℚ
deriving DecidableEq, Repr

/-- Result of ResourceMonitor.get_cpu_info (resource_utils.py lines 45-58);
only the percent_used field is consulted by the checks that the claims
are about. -/
structure CpuInfo where
  percent_used : ℚ
deriving DecidableEq, Repr

/-- Result of ResourceMonitor.get_disk_info (resource_utils.py lines 60-73);
only percent_used is consulted by check_resource_pressure. -/
structure DiskInfo where
  percent_used : ℚ
deriving DecidableEq, Repr

/-- One round of OS metric samples, as consumed by one call to
check_resource_pressure (one get_memory_info, one get_cpu_info, one
get_disk_info). -/
structure Snapshot where
  mem : MemInfo
  cpu : CpuInfo
  disk : DiskInfo
deriving DecidableEq, Repr

/-- The three metrics examined by check_resource_pressure. -/
inductive Metric
  | memory
  | cpu
  | disk
deriving DecidableEq, Repr

/-- One entry of the issues list built by check_resource_pressure:
the breached metric together with the observed value that is embedded
in the formatted message string (e.g. "High memory usage: 91.2%"). -/
structure Issue where
  metric : Metric
  value : ℚ
deriving DecidableEq, Repr

/-- ResourceMonitor construction state (resource_utils.py lines 21-33):
the three thresholds fixed at construction time. -/
structure ResourceMonitor where
  memory_headroom_mb : ℚ
  cpu_threshold : ℚ
  disk_threshold : ℚ
deriving DecidableEq, Repr

/-- The structured content of the message returned by
ResourceMonitor.ensure_memory_headroom: both formatted strings
(insufficient and sufficient) interpolate the available and the
required amounts. -/
structure HeadroomMsg where
  ok : Bool
  available_mb : ℚ
  required_mb : ℚ
deriving DecidableEq, Repr

/-- ResourceMonitor.ensure_memory_headroom (resource_utils.py lines 75-97):
required is the explicit argument when given, otherwise the configured
memory_headroom_mb; returns False with an insufficiency message when
available_mb < required, True with a sufficiency message otherwise. -/
def ResourceMonitor.ensure_memory_headroom (rm : ResourceMonitor)
    (min_mb : Option ℚ) (mem : MemInfo) : Bool × HeadroomMsg :=
  let required_mb := min_mb.getD rm.memory_headroom_mb
  let available_mb := mem.available_mb
  if available_mb < required_mb then
    (false, ⟨false, available_mb, required_mb⟩)
  else
    (true, ⟨true, available_mb, required_mb⟩)

/-- Module-level ensure_memory_headroom (resource_utils.py lines 186-199):
builds a fresh ResourceMonitor with memory_headroom_mb = min_mb and the
default cpu/disk thresholds (85, 90), calls the method with no explicit
argument, prints the message and returns only the boolean. -/
def ensure_memory_headroom_fn (min_mb : ℚ) (mem : MemInfo) : Bool :=
  (ResourceMonitor.ensure_memory_headroom ⟨min_mb, 85, 90⟩ none mem).1

/-- The issues list accumulated by ResourceMonitor.check_resource_pressure
(resource_utils.py lines 106-121): an issue for memory when
percent_used > 85 (a literal in the source), for CPU when
percent_used > cpu_threshold, for disk when percent_used >
disk_threshold, appended in that order. -/
def pressure_issues (rm : ResourceMonitor) (s : Snapshot) : List Issue :=
  (if s.mem.percent_used > 85 then [⟨Metric.memory, s.mem.percent_used⟩] else []) ++
  (if s.cpu.percent_used > rm.cpu_threshold then [⟨Metric.cpu, s.cpu.percent_used⟩] else []) ++
  (if s.disk.percent_used > rm.disk_threshold then [⟨Metric.disk, s.disk.percent_used⟩] else [])

/-- ResourceMonitor.check_resource_pressure (resource_utils.py lines
99-126): has_pressure is whether the accumulated issues list is
nonempty; the message interpolates exactly that list. -/
def check_resource_pressure (rm : ResourceMonitor) (s : Snapshot) :
    Bool × List Issue :=
  (!(pressure_issues rm s).isEmpty, pressure_issues rm s)

/-- The observed value of each metric in a snapshot, as read by
check_resource_pressure. -/
def observed (s : Snapshot) : Metric → ℚ
  | Metric.memory => s.mem.percent_used
  | Metric.cpu => s.cpu.percent_used
  | Metric.disk => s.disk.percent_used

/-- The threshold check_resource_pressure compares each metric against:
the literal 85 for memory, the configured values for CPU and disk. -/
def threshold (rm : ResourceMonitor) : Metric → ℚ
  | Metric.memory => 85
  | Metric.cpu => rm.cpu_threshold
  | Metric.disk => rm.disk_threshold

theorem metric_exists_iff (p : Metric → Prop) :
    (∃ m, p m) ↔ p Metric.memory ∨ p Metric.cpu ∨ p Metric.disk := by
  constructor
  · rintro ⟨m, hm⟩
    cases m
    · exact Or.inl hm
    · exact Or.inr (Or.inl hm)
    · exact Or.inr (Or.inr hm)
  · rintro (h | h | h) <;> exact ⟨_, h⟩

/-- Claim C7: check_resource_pressure returns has_pressure = true iff at
least one of memory, CPU, disk exceeds its threshold, and the issues
list contains exactly the breached metrics, each paired with its
observed value — never a subset, never a superset. -/
theorem c7_pressure_exact_set (rm : ResourceMonitor) (s : Snapshot) :
    ((check_resource_pressure rm s).1 = true ↔
      ∃ m : Metric, observed s m > threshold rm m) ∧
    (∀ m : Metric,
      (⟨m, observed s m⟩ : Issue) ∈ (check_resource_pressure rm s).2 ↔
        observed s m > threshold rm m) ∧
    (∀ iss ∈ (check_resource_pressure rm s).2,
      iss.value = observed s iss.metric ∧
        observed s iss.metric > threshold rm iss.metric) := by
  have memSingle : ∀ {c : Prop} [Decidable c] {x iss : Issue},
      iss ∈ (if c then [x] else []) → c ∧ iss = x := by
    intro c _ x iss h
    by_cases hc : c <;> simp [hc] at h <;> simp [hc, h]
  refine ⟨?_, ?_, ?_⟩
  · rw [metric_exists_iff]
    by_cases h1 : s.mem.percent_used > 85 <;>
    by_cases h2 : s.cpu.percent_used > rm.cpu_threshold <;>
    by_cases h3 : s.disk.percent_used > rm.disk_threshold <;>
      simp [check_resource_pressure, pressure_issues, observed, threshold,
        h1, h2, h3]
  · intro m
    cases m <;>
      (by_cases h1 : s.mem.percent_used > 85 <;>
       by_cases h2 : s.cpu.percent_used > rm.cpu_threshold <;>
       by_cases h3 : s.disk.percent_used > rm.disk_threshold <;>
         simp [check_resource_pressure, pressure_issues, observed, threshold,
           h1, h2, h3])
  · intro iss hiss
    replace hiss : iss ∈ pressure_issues rm s := hiss
    unfold pressure_issues at hiss
    rcases List.mem_append.mp hiss with h | h
    · rcases List.mem_append.mp h with h | h
      · obtain ⟨hc, rfl⟩ := memSingle h
        simp [observed, threshold, hc]
      · obtain ⟨hc, rfl⟩ := memSingle h
        simp [observed, threshold, hc]
    · obtain ⟨hc, rfl⟩ := memSingle h
      simp [observed, threshold, hc]

/-- Claim C8: the headroom check succeeds iff available_mb is at least
the required amount, fails iff available_mb is strictly below it, and
its message carries both the available and the required values. -/
theorem c8_headroom_iff (rm : ResourceMonitor) (requiredMb : ℚ) (mem : MemInfo) :
    ((rm.ensure_memory_headroom (some requiredMb) mem).1 = true ↔
      requiredMb ≤ mem.available_mb) ∧
    ((rm.ensure_memory_headroom (some requiredMb) mem).1 = false ↔
      mem.available_mb < requiredMb) ∧
    (rm.ensure_memory_headroom (some requiredMb) mem).2.available_mb =
      mem.available_mb ∧
    (rm.ensure_memory_headroom (some requiredMb) mem).2.required_mb =
      requiredMb := by
  unfold ResourceMonitor.ensure_memory_headroom
  by_cases h : mem.available_mb < requiredMb
  · simp [h, le_of_lt, not_le.mpr h]
  · simp [h, not_lt.mp h]

/-- The distinct log lines printed through EnhancedChaosEngine.log and
the plain prints of enhanced_chaos_demo.py, identified structurally
(interpolated data carried as fields). -/
inductive LogMsg
  | preflightStart
  | preflightFailedHealth
  | preflightFailedHeadroom
  | preflightFailedBinary
  | preflightPassed
  | startingValidator
  | waitingForStartup
  | startFailedException
  | validatorFailedToStart
  | lowHeadroomWarning
  | validatorStartedOk
  | startingScenario
  | startingMemScenario
  | initialMemory (percent : ℚ)
  | chaosStep (i : ℕ)
  | pressureDetected (issues : List Issue)
  | validatorDied
  | headroomAbort
  | memScenarioCompleted
  | startingCpuScenario
  | cpuScenarioCompleted
  | cpuScenarioFailed
  | pressureWarning (issues : List Issue)
  | criticalMemoryAbort
  | startingNetworkScenario
  | validatorDiedNetwork
  | networkScenarioCompleted
  | stoppingValidator
  | stoppedGracefully
  | forcingShutdown
  | receivedSignal (signum : ℤ)
  | unknownScenario
deriving DecidableEq, Repr

/-- Call sites of ResourceMonitor.log_resource_usage, identified by the
message argument passed at each site. -/
inductive RLTag
  | beforeStartup
  | afterStartup
  | memStep (i : ℕ)
  | netStep (i : ℕ)
  | afterShutdown
  | stressStarted
  | stressElapsed (i : ℕ)
  | stressCompleted
deriving DecidableEq, Repr

/-- The observable actions of the embedded program, recorded as a trace:
log lines, metric checks, resource-usage logs, process signals, sleeps,
process spawns/waits for the stress generator, and sys.exit calls.
stopCalled marks each invocation of EnhancedChaosEngine.stop_validator. -/
inductive Event
  | log (m : LogMsg)
  | pressureCheck (hasPressure : Bool)
  | healthCheck (exited : Bool)
  | headroomCheck (ok : Bool)
  | resourceLog (tag : RLTag)
  | sigTerm
  | sigKill
  | stopCalled
  | sleep (secs : ℤ)
  | exitCall (code : ℤ)
  | spawnStress
  | waitStress
deriving DecidableEq, Repr

/-- A subprocess.Popen handle: alive is the OS-level liveness of the
child; returncode is Popen.returncode, set once an exit has been
observed through poll or wait. -/
structure ProcHandle where
  alive : Bool
  returncode : Option ℤ
deriving DecidableEq, Repr

/-- Environment of a stop_validator call: whether the child exits within
the 10-second graceful wait after SIGTERM, and the exit code observed
when the child is reaped. -/
structure StopEnv where
  diesWithinGrace : Bool
  exitCode : ℤ
deriving DecidableEq, Repr

/-- Popen.terminate = send_signal(SIGTERM): polls first and does nothing
when the process has already completed (returncode set, or the child is
found dead and reaped by the poll); otherwise delivers SIGTERM. -/
def ProcHandle.terminate (env : StopEnv) (h : ProcHandle) :
    ProcHandle × List Event :=
  if h.returncode.isSome then (h, [])
  else if !h.alive then ({ h with returncode := some env.exitCode }, [])
  else (h, [Event.sigTerm])

/-- Popen.wait observing the child exit: the process is dead afterwards
and returncode is set (kept if already observed, else the environment
exit code). -/
def ProcHandle.reap (env : StopEnv) (h : ProcHandle) : ProcHandle :=
  ⟨false, some (h.returncode.getD env.exitCode)⟩

/-- EnhancedChaosEngine.stop_validator (enhanced_chaos_demo.py lines
230-252): does nothing when validator_process is None; otherwise logs,
terminates, waits up to 10 seconds, escalates to kill plus an
unconditional wait on timeout, and always ends with a final resource
log. validator_process is never reset to None, so a later call sees the
same handle with returncode already set. -/
def stop_validator (env : StopEnv) (vp : Option ProcHandle) :
    Option ProcHandle × List Event :=
  match vp with
  | none => (none, [Event.stopCalled])
  | some h =>
    let t := ProcHandle.terminate env h
    if t.1.returncode.isSome || env.diesWithinGrace then
      (some (ProcHandle.reap env t.1),
       [Event.stopCalled, Event.log LogMsg.stoppingValidator] ++ t.2 ++
         [Event.log LogMsg.stoppedGracefully, Event.resourceLog RLTag.afterShutdown])
    else
      (some ⟨false, some (-9)⟩,
       [Event.stopCalled, Event.log LogMsg.stoppingValidator] ++ t.2 ++
         [Event.log LogMsg.forcingShutdown, Event.sigKill,
          Event.resourceLog RLTag.afterShutdown])

/-- The signal_handler registered in main for SIGINT and SIGTERM
(enhanced_chaos_demo.py lines 296-302): prints the received signal,
invokes engine.stop_validator directly, and calls sys.exit(0). Returns
the final handle, the events performed inside the handler, and the exit
status it terminates the process with. -/
def signal_handler (env : StopEnv) (vp : Option ProcHandle) (signum : ℤ) :
    Option ProcHandle × List Event × ℤ :=
  let s := stop_validator env vp
  (s.1, Event.log (LogMsg.receivedSignal signum) :: s.2 ++ [Event.exitCall 0], 0)

/-- A running, not yet reaped validator handle. -/
def hRun : ProcHandle := ⟨true, none⟩

/-- A stop environment in which the child exits gracefully with code 0. -/
def se0 : StopEnv := ⟨true, 0⟩

/-- Counterexample to claim C6 as stated: after stopping a running
validator once, a second stop_validator call on the already-stopped
handle emits further output (the stopping and stopped-gracefully log
lines and another final resource log), so the observable emitted output
after the second call is not identical to that after the first call.
The input is concrete: a graceful-stop environment and an initially
running handle. -/
theorem c6_stop_idempotence_counterexample :
    Event.log LogMsg.stoppingValidator ∈
      (stop_validator se0 (stop_validator se0 (some hRun)).1).2 ∧
    Event.log LogMsg.stoppedGracefully ∈
      (stop_validator se0 (stop_validator se0 (some hRun)).1).2 ∧
    (stop_validator se0 (some hRun)).2 ++
        (stop_validator se0 (stop_validator se0 (some hRun)).1).2 ≠
      (stop_validator se0 (some hRun)).2 := by
  decide

/-- Claim C6 amended: calling stop_validator on a handle whose process
is already stopped and reaped sends no termination signal (neither
SIGTERM nor SIGKILL) and leaves the process state unchanged, but it is
not a no-op: it emits the stopping log, the stopped-gracefully log and
a final resource log again. -/
theorem c6_stop_idempotence_amended (env : StopEnv) (c : ℤ) :
    (stop_validator env (some ⟨false, some c⟩)).1 = some ⟨false, some c⟩ ∧
    (stop_validator env (some ⟨false, some c⟩)).2 =
      [Event.stopCalled, Event.log LogMsg.stoppingValidator,
       Event.log LogMsg.stoppedGracefully, Event.resourceLog RLTag.afterShutdown] ∧
    Event.sigTerm ∉ (stop_validator env (some ⟨false, some c⟩)).2 ∧
    Event.sigKill ∉ (stop_validator env (some ⟨false, some c⟩)).2 := by
  refine ⟨?_, ?_, ?_, ?_⟩ <;>
    simp [stop_validator, ProcHandle.terminate, ProcHandle.reap]

/-- Counterexample to claim C9 as stated: with the validator running,
the registered interrupt handler does not merely set a cancellation
flag — its own body invokes stop_validator (which sends the SIGTERM
termination signal and waits) and then exits the process, so blocking
and stateful shutdown work happens inside the handler itself, at a
concrete input (signal 2, a running handle). -/
theorem c9_handler_counterexample :
    Event.stopCalled ∈ (signal_handler se0 (some hRun) 2).2.1 ∧
    Event.sigTerm ∈ (signal_handler se0 (some hRun) 2).2.1 ∧
    (signal_handler se0 (some hRun) 2).2.2 = 0 := by
  decide

/-- Claim C9 amended: the registered interrupt handler performs the
shutdown work directly instead of setting a cancellation flag: on any
signal and any handle state it invokes stop_validator inside the
handler and terminates the process with exit status 0; when the
monitored process is still running this includes sending the SIGTERM
signal and waiting from inside the handler. -/
theorem c9_handler_amended (env : StopEnv) (vp : Option ProcHandle) (signum : ℤ) :
    Event.stopCalled ∈ (signal_handler env vp signum).2.1 ∧
    (signal_handler env vp signum).2.2 = 0 ∧
    Event.sigTerm ∈ (signal_handler env (some ⟨true, none⟩) signum).2.1 := by
  refine ⟨?_, rfl, ?_⟩
  · cases vp with
    | none => simp [signal_handler, stop_validator]
    | some h =>
      by_cases hg : (ProcHandle.terminate env h).1.returncode.isSome || env.diesWithinGrace <;>
        simp [signal_handler, stop_validator, hg]
  · by_cases hg : env.diesWithinGrace <;>
      simp [signal_handler, stop_validator, ProcHandle.terminate, hg]

/-- External world of one EnhancedChaosEngine run: every OS-level
observation the Python code makes is an oracle here, indexed by the
loop iteration that consumes it. Booleans model branch-relevant
outcomes (process polls, exceptions, binary availability); rationals
and snapshots model psutil samples. -/
structure Env where
  healthRaises : Option PyErr
  healthOk : Bool
  headroom512 : Bool
  binaryExists : Bool
  spawnRaises : Bool
  startPollExited : Bool
  startExitCode : ℤ
  headroomAfterStart : Bool
  initMem : MemInfo
  pressureSnap : ℕ → Snapshot
  headroomMem : ℕ → MemInfo
  exitedAt : ℕ → Bool
  netExitedAt : ℕ → Bool
  stressNg : Bool
  cpuRaises : Bool
  msIterCount : ℕ
  msSnap : ℕ → Snapshot
  msAvail : ℕ → ℚ
  stopEnv : StopEnv
  vpAtInterrupt : Option ProcHandle

/-- Loop body of _run_memory_pressure_scenario (enhanced_chaos_demo.py
lines 149-172), iterated over the indices produced by
range(duration // 10). Per iteration, in source order: pressure check
(break on pressure, after logging the issues), validator poll (return
False when the process has exited), chaos-step log, resource log,
headroom check with 256 MB (break on failure), sleep(10). Falling out
of the loop — normally or by break — logs completion and returns True. -/
def memIters (rm : ResourceMonitor) (env : Env) (hasV : Bool) :
    List ℕ → Bool × List Event
  | [] => (true, [Event.log LogMsg.memScenarioCompleted])
  | i :: rest =>
    let pr := check_resource_pressure rm (env.pressureSnap i)
    if pr.1 then
      (true, [Event.pressureCheck true, Event.log (LogMsg.pressureDetected pr.2),
              Event.log LogMsg.memScenarioCompleted])
    else if hasV && env.exitedAt i then
      (false, [Event.pressureCheck false, Event.healthCheck true,
               Event.log LogMsg.validatorDied])
    else
      let hk := ensure_memory_headroom_fn 256 (env.headroomMem i)
      let pre := [Event.pressureCheck false, Event.healthCheck false,
                  Event.log (LogMsg.chaosStep (i + 1)),
                  Event.resourceLog (RLTag.memStep (i + 1)),
                  Event.headroomCheck hk]
      if !hk then
        (true, pre ++ [Event.log LogMsg.headroomAbort,
                       Event.log LogMsg.memScenarioCompleted])
      else
        ((memIters rm env hasV rest).1,
         pre ++ [Event.sleep 10] ++ (memIters rm env hasV rest).2)

/-- _run_memory_pressure_scenario (enhanced_chaos_demo.py lines 135-183):
logs the scenario start and the initial memory percentage from a fresh
get_memory_info, then runs the loop over range(self.duration // 10).
The finally block only iterates over the always-empty memory_consumers
list, so it contributes no observable behavior. Python // is floor
division and range clamps negative arguments to an empty range. -/
def _run_memory_pressure_scenario (rm : ResourceMonitor) (env : Env)
    (hasV : Bool) (duration : ℤ) : Bool × List Event :=
  let body := memIters rm env hasV (List.range (Int.fdiv duration 10).toNat)
  (body.1,
   Event.log LogMsg.startingMemScenario ::
     Event.log (LogMsg.initialMemory env.initMem.percent_used) :: body.2)

/-- Loop body of _run_network_chaos_scenario (enhanced_chaos_demo.py
lines 217-225), iterated over range(duration // 5): resource log, then
validator poll (return False when exited), then sleep(5). Falling out
of the loop logs completion and returns True. -/
def netIters (env : Env) (hasV : Bool) : List ℕ → Bool × List Event
  | [] => (true, [Event.log LogMsg.networkScenarioCompleted])
  | i :: rest =>
    if hasV && env.netExitedAt i then
      (false, [Event.resourceLog (RLTag.netStep (i + 1)), Event.healthCheck true,
               Event.log LogMsg.validatorDiedNetwork])
    else
      ((netIters env hasV rest).1,
       Event.resourceLog (RLTag.netStep (i + 1)) :: Event.healthCheck false ::
         Event.sleep 5 :: (netIters env hasV rest).2)

/-- _run_network_chaos_scenario (enhanced_chaos_demo.py lines 212-228). -/
def _run_network_chaos_scenario (env : Env) (hasV : Bool) (duration : ℤ) :
    Bool × List Event :=
  let body := netIters env hasV (List.range (Int.fdiv duration 5).toNat)
  (body.1, Event.log LogMsg.startingNetworkScenario :: body.2)

/-- Loop body of monitor_stress_test (resource_utils.py lines 258-275).
The loop is wall-clock driven (while time elapsed < duration), so the
number of admitted iterations is an environment oracle; each iteration
is faithful to the source: sleep(log_interval), resource log, pressure
check; on pressure the message is printed and, when the freshly sampled
available memory is below the critical 256 MB, the test aborts
returning False. -/
def msIters (rm : ResourceMonitor) (env : Env) (interval : ℤ) :
    List ℕ → Bool × List Event
  | [] => (true, [])
  | i :: rest =>
    let pr := check_resource_pressure rm (env.msSnap i)
    let pre := [Event.sleep interval, Event.resourceLog (RLTag.stressElapsed i),
                Event.pressureCheck pr.1]
    if pr.1 then
      if env.msAvail i < 256 then
        (false, pre ++ [Event.log (LogMsg.pressureWarning pr.2),
                        Event.log LogMsg.criticalMemoryAbort])
      else
        ((msIters rm env interval rest).1,
         pre ++ [Event.log (LogMsg.pressureWarning pr.2)] ++
           (msIters rm env interval rest).2)
    else
      ((msIters rm env interval rest).1, pre ++ (msIters rm env interval rest).2)

/-- monitor_stress_test (resource_utils.py lines 242-283): logs the
start, runs the wall-clock loop with log_interval =
min(30, duration // 10), and in a finally block always logs completion.
Its boolean result reports whether the critical-memory abort did not
fire. -/
def monitor_stress_test (rm : ResourceMonitor) (env : Env) (duration : ℤ) :
    Bool × List Event :=
  let interval := min 30 (Int.fdiv duration 10)
  let body := msIters rm env interval (List.range env.msIterCount)
  (body.1,
   Event.resourceLog RLTag.stressStarted :: body.2 ++
     [Event.resourceLog RLTag.stressCompleted])

/-- _run_cpu_stress_scenario (enhanced_chaos_demo.py lines 185-210):
optionally spawns stress-ng when present, calls monitor_stress_test and
DISCARDS its boolean result, waits for the spawned generator, and
returns True; only an exception inside the try block yields False. The
validator process is never consulted. -/
def _run_cpu_stress_scenario (rm : ResourceMonitor) (env : Env)
    (duration : ℤ) : Bool × List Event :=
  if env.cpuRaises then
    (false, [Event.log LogMsg.startingCpuScenario,
             Event.log LogMsg.cpuScenarioFailed])
  else
    let spawnEv := if env.stressNg then [Event.spawnStress] else []
    let waitEv := if env.stressNg then [Event.waitStress] else []
    (true,
     Event.log LogMsg.startingCpuScenario :: spawnEv ++
       (monitor_stress_test rm env duration).2 ++ waitEv ++
       [Event.log LogMsg.cpuScenarioCompleted])

/-- run_chaos_scenario (enhanced_chaos_demo.py lines 111-133): logs the
scenario start, dispatches on the scenario_type string, and fails
closed on an unknown kind. Its try/except would convert an escaping
exception into False; in this embedding the only raising strategy
(cpu_stress) already handles its exception internally. -/
def run_chaos_scenario (rm : ResourceMonitor) (env : Env) (hasV : Bool)
    (scenario_type : String) (duration : ℤ) : Bool × List Event :=
  let body :=
    if scenario_type = "memory_pressure" then
      _run_memory_pressure_scenario rm env hasV duration
    else if scenario_type = "cpu_stress" then
      _run_cpu_stress_scenario rm env duration
    else if scenario_type = "network_chaos" then
      _run_network_chaos_scenario env hasV duration
    else (false, [Event.log LogMsg.unknownScenario])
  (body.1, Event.log LogMsg.startingScenario :: body.2)

/-- pre_flight_checks (enhanced_chaos_demo.py lines 36-56): system
health check, 512 MB headroom check, validator binary presence, with an
early False and a distinct log line at the first failing check. The
health and headroom helpers query psutil without any try/except, so a
metrics-query failure there escapes as an exception (modelled by
healthRaises). -/
def pre_flight_checks (env : Env) : Except PyErr Bool × List Event :=
  match env.healthRaises with
  | some e => (Except.error e, [Event.log LogMsg.preflightStart])
  | none =>
    if !env.healthOk then
      (Except.ok false, [Event.log LogMsg.preflightStart,
                         Event.log LogMsg.preflightFailedHealth])
    else if !env.headroom512 then
      (Except.ok false, [Event.log LogMsg.preflightStart,
                         Event.log LogMsg.preflightFailedHeadroom])
    else if !env.binaryExists then
      (Except.ok false, [Event.log LogMsg.preflightStart,
                         Event.log LogMsg.preflightFailedBinary])
    else
      (Except.ok true, [Event.log LogMsg.preflightStart,
                        Event.log LogMsg.preflightPassed])

/-- start_validator_with_monitoring (enhanced_chaos_demo.py lines
66-109): resource log, Popen spawn (an exception is caught and yields
False), sleep(5), poll — an already-exited child yields False with the
handle retaining its observed exit code — another resource log, and a
post-start headroom check whose failure also yields False while the
child keeps running. Returns the success flag, the value of
self.validator_process afterwards, and the events. -/
def start_validator_with_monitoring (env : Env) :
    Bool × Option ProcHandle × List Event :=
  let ev0 := [Event.log LogMsg.startingValidator,
              Event.resourceLog RLTag.beforeStartup]
  if env.spawnRaises then
    (false, none, ev0 ++ [Event.log LogMsg.startFailedException])
  else
    let ev1 := ev0 ++ [Event.log LogMsg.waitingForStartup, Event.sleep 5]
    if env.startPollExited then
      (false, some ⟨false, some env.startExitCode⟩,
       ev1 ++ [Event.log LogMsg.validatorFailedToStart])
    else if !env.headroomAfterStart then
      (false, some ⟨true, none⟩,
       ev1 ++ [Event.resourceLog RLTag.afterStartup,
               Event.log LogMsg.lowHeadroomWarning])
    else
      (true, some ⟨true, none⟩,
       ev1 ++ [Event.resourceLog RLTag.afterStartup,
               Event.log LogMsg.validatorStartedOk])

/-- Result of one run_enhanced_chaos_test call: the returned value (or
the exception escaping the try body), the final validator_process
handle, and the full event trace. -/
structure RunResult where
  outcome : Except PyErr Bool
  vp : Option ProcHandle
  events : List Event
deriving Repr

/-- The finally clause of run_enhanced_chaos_test: whatever the body
produced, stop_validator runs on the current handle before the call
returns. -/
def finallyStop (se : StopEnv) (out : Except PyErr Bool)
    (vp : Option ProcHandle) (ev : List Event) : RunResult :=
  let s := stop_validator se vp
  ⟨out, s.1, ev ++ s.2⟩

/-- run_enhanced_chaos_test (enhanced_chaos_demo.py lines 254-272):
pre-flight (early False), start (early False), scenario; the finally
clause invokes stop_validator on every exit path, including an
exception escaping pre-flight. -/
def run_enhanced_chaos_test (rm : ResourceMonitor) (env : Env)
    (scenario_type : String) (duration : ℤ) : RunResult :=
  match pre_flight_checks env with
  | (Except.error e, pfEv) => finallyStop env.stopEnv (Except.error e) none pfEv
  | (Except.ok false, pfEv) => finallyStop env.stopEnv (Except.ok false) none pfEv
  | (Except.ok true, pfEv) =>
    match start_validator_with_monitoring env with
    | (false, vp, stEv) =>
      finallyStop env.stopEnv (Except.ok false) vp (pfEv ++ stEv)
    | (true, vp, stEv) =>
      let rc := run_chaos_scenario rm env vp.isSome scenario_type duration
      finallyStop env.stopEnv (Except.ok rc.1) vp (pfEv ++ stEv ++ rc.2)

/-- main (enhanced_chaos_demo.py lines 275-313) reduced to its exit
status: usage error exits 1; a fired SIGINT/SIGTERM runs signal_handler,
which exits with the status the handler passes to sys.exit; otherwise
the run result maps True to exit 0 and False to exit 1, and an uncaught
exception makes the interpreter exit 1. -/
def pyMain (rm : ResourceMonitor) (env : Env) (argcOk : Bool)
    (scenario_type : String) (duration : ℤ) (interrupted : Bool) : ℤ :=
  if !argcOk then 1
  else if interrupted then (signal_handler env.stopEnv env.vpAtInterrupt 2).2.2
  else
    match (run_enhanced_chaos_test rm env scenario_type duration).outcome with
    | Except.ok true => 0
    | Except.ok false => 1
    | Except.error _ => 1

theorem stop_validator_stops (se : StopEnv) (vp : Option ProcHandle) :
    Event.stopCalled ∈ (stop_validator se vp).2 ∧
    Option.all (fun h => !h.alive) (stop_validator se vp).1 = true := by
  cases vp with
  | none => simp [stop_validator]
  | some h =>
    by_cases hg : (ProcHandle.terminate se h).1.returncode.isSome || se.diesWithinGrace <;>
      simp [stop_validator, ProcHandle.reap, hg]

theorem finallyStop_stops (se : StopEnv) (out : Except PyErr Bool)
    (vp : Option ProcHandle) (ev : List Event) :
    Event.stopCalled ∈ (finallyStop se out vp ev).events ∧
    Option.all (fun h => !h.alive) (finallyStop se out vp ev).vp = true := by
  have h := stop_validator_stops se vp
  unfold finallyStop
  exact ⟨List.mem_append.mpr (Or.inr h.1), h.2⟩

/-- Claim C1: on every path of run_enhanced_chaos_test — pre-flight
failure or exception, start failure, scenario success, scenario
failure — the shutdown routine stop_validator is invoked before the
call returns, and the final validator handle is never left alive (the
monitored process is never left attached and unterminated). -/
theorem c1_shutdown_always_invoked (rm : ResourceMonitor) (env : Env)
    (scenario_type : String) (duration : ℤ) :
    Event.stopCalled ∈ (run_enhanced_chaos_test rm env scenario_type duration).events ∧
    Option.all (fun h => !h.alive)
      (run_enhanced_chaos_test rm env scenario_type duration).vp = true := by
  unfold run_enhanced_chaos_test
  split
  · exact finallyStop_stops _ _ _ _
  · exact finallyStop_stops _ _ _ _
  · split
    · exact finallyStop_stops _ _ _ _
    · exact finallyStop_stops _ _ _ _

/-- The OS queries consumed by one check_resource_pressure call, each of
which can raise: psutil.virtual_memory (via get_memory_info),
psutil.cpu_percent (via get_cpu_info), shutil.disk_usage (via
get_disk_info). -/
structure OsApi where
  virtual_memory : Except PyErr MemInfo
  cpu_percent : Except PyErr CpuInfo
  disk_usage : Except PyErr DiskInfo

/-- check_resource_pressure with its OS queries explicit:
get_memory_info, get_cpu_info and get_disk_info (resource_utils.py
lines 35-73) call psutil/shutil directly and check_resource_pressure
(lines 99-126) wraps none of them in try/except, so a failing query
escapes to the caller of check_resource_pressure; queries happen in
source order (memory, then CPU, then disk). -/
def check_resource_pressure_os (rm : ResourceMonitor) (q : OsApi) :
    Except PyErr (Bool × List Issue) := do
  let mem ← q.virtual_memory
  let cpu ← q.cpu_percent
  let disk ← q.disk_usage
  let issues :=
    (if mem.percent_used > 85 then [⟨Metric.memory, mem.percent_used⟩] else []) ++
    (if cpu.percent_used > rm.cpu_threshold then [⟨Metric.cpu, cpu.percent_used⟩] else []) ++
    (if disk.percent_used > rm.disk_threshold then [⟨Metric.disk, disk.percent_used⟩] else [])
  return (!issues.isEmpty, issues)

theorem check_resource_pressure_os_ok (rm : ResourceMonitor) (s : Snapshot) :
    check_resource_pressure_os rm ⟨Except.ok s.mem, Except.ok s.cpu, Except.ok s.disk⟩ =
      Except.ok (check_resource_pressure rm s) := rfl

/-- A baseline resource monitor with the default construction arguments
ResourceMonitor(memory_headroom_mb=512) of the engine
(enhanced_chaos_demo.py line 29). -/
def rm0 : ResourceMonitor := ⟨512, 85, 90⟩

/-- Counterexample to claim C4 as stated: when the memory metrics query
fails, check_resource_pressure does not return hasPressure = true — the
failure is propagated to the caller as an exception, at the concrete
input where virtual_memory raises and the other queries would have
succeeded with unremarkable values. -/
theorem c4_metrics_failure_counterexample :
    check_resource_pressure_os rm0
        ⟨Except.error ⟨"virtual_memory query failed"⟩,
         Except.ok ⟨10⟩, Except.ok ⟨40⟩⟩ =
      Except.error ⟨"virtual_memory query failed"⟩ := rfl

/-- Claim C4 amended: a failing OS metrics query inside
check_resource_pressure is not converted fail-safe into pressure
present; whichever of the three queries fails, the exception propagates
unchanged to the caller of check_resource_pressure. -/
theorem c4_metrics_failure_amended (rm : ResourceMonitor) (e : PyErr)
    (cq : Except PyErr CpuInfo) (dq : Except PyErr DiskInfo)
    (m : MemInfo) (cp : CpuInfo) :
    check_resource_pressure_os rm ⟨Except.error e, cq, dq⟩ = Except.error e ∧
    check_resource_pressure_os rm ⟨Except.ok m, Except.error e, dq⟩ = Except.error e ∧
    check_resource_pressure_os rm ⟨Except.ok m, Except.ok cp, Except.error e⟩ =
      Except.error e :=
  ⟨rfl, rfl, rfl⟩

/-- Events that are per-iteration monitoring work inside a scenario
loop: pressure checks, validator health polls, headroom checks and
resource-usage logs. -/
def isMonitoringEvent : Event → Bool
  | Event.pressureCheck _ => true
  | Event.healthCheck _ => true
  | Event.headroomCheck _ => true
  | Event.resourceLog _ => true
  | _ => false

/-- Validator health polls. -/
def isHealthCheckEvent : Event → Bool
  | Event.healthCheck _ => true
  | _ => false

/-- Resource-pressure checks. -/
def isPressureCheckEvent : Event → Bool
  | Event.pressureCheck _ => true
  | _ => false

/-- A healthy memory sample: plenty of headroom, moderate usage. -/
def memOkInfo : MemInfo := ⟨16000, 8000, 8000, 50⟩

/-- A snapshot with no metric above any threshold. -/
def snapOk : Snapshot := ⟨memOkInfo, ⟨10⟩, ⟨40⟩⟩

/-- A snapshot whose memory usage percentage (90) exceeds the hardcoded
85 threshold of check_resource_pressure. -/
def snapHighMem : Snapshot := ⟨⟨16000, 1000, 15000, 90⟩, ⟨10⟩, ⟨40⟩⟩

/-- A benign run environment: pre-flight passes, the validator starts
and stays alive, no pressure, stress-ng absent, one wall-clock
iteration admitted in monitor_stress_test, graceful shutdown. -/
def env0 : Env where
  healthRaises := none
  healthOk := true
  headroom512 := true
  binaryExists := true
  spawnRaises := false
  startPollExited := false
  startExitCode := 1
  headroomAfterStart := true
  initMem := memOkInfo
  pressureSnap := fun _ => snapOk
  headroomMem := fun _ => memOkInfo
  exitedAt := fun _ => false
  netExitedAt := fun _ => false
  stressNg := false
  cpuRaises := false
  msIterCount := 1
  msSnap := fun _ => snapOk
  msAvail := fun _ => 8000
  stopEnv := se0
  vpAtInterrupt := none

/-- env0 with resource pressure present on every sample. -/
def envP : Env := { env0 with pressureSnap := fun _ => snapHighMem }

/-- env0 with the validator found dead at every poll. -/
def envDead : Env :=
  { env0 with exitedAt := fun _ => true, netExitedAt := fun _ => true }

/-- env0 with a failing pre-flight health check. -/
def envPre : Env := { env0 with healthOk := false }

/-- Counterexample to claim C2 as stated: at the concrete input where
pressure is detected on the very first iteration of a memory_pressure
scenario (memory at 90 percent against the 85 threshold, duration 10),
the strategy does abort the loop early and logs the triggering metrics,
but it returns true, not false. -/
theorem c2_pressure_abort_counterexample :
    (_run_memory_pressure_scenario rm0 envP true 10).1 = true ∧
    Event.pressureCheck true ∈ (_run_memory_pressure_scenario rm0 envP true 10).2 ∧
    Event.log (LogMsg.pressureDetected (check_resource_pressure rm0 snapHighMem).2) ∈
      (_run_memory_pressure_scenario rm0 envP true 10).2 := by
  decide

theorem netIters_no_pressure_events (env : Env) (hasV : Bool) (l : List ℕ) :
    ((netIters env hasV l).2.all fun e => !(isPressureCheckEvent e)) = true := by
  induction l with
  | nil => rfl
  | cons i rest ih =>
    by_cases hd : (hasV && env.netExitedAt i) = true <;>
      simp [netIters, hd, isPressureCheckEvent] at ih ⊢ <;> exact ih

/-- Claim C2 amended: only the memory_pressure strategy performs a
per-iteration pressure check; on any iteration where pressure is
detected it logs the triggering metrics and exits the loop immediately
(no later iteration is executed), but it then returns true, not false.
The network_chaos strategy performs no pressure check at all, and the
cpu_stress strategy returns true regardless of what its delegated
monitor observed, because it discards that result. -/
theorem c2_pressure_abort_amended (rm : ResourceMonitor) (env : Env)
    (hasV : Bool) (i : ℕ) (rest : List ℕ) (d : ℤ)
    (hp : (check_resource_pressure rm (env.pressureSnap i)).1 = true)
    (hc : env.cpuRaises = false) :
    memIters rm env hasV (i :: rest) =
      (true,
       [Event.pressureCheck true,
        Event.log (LogMsg.pressureDetected (check_resource_pressure rm (env.pressureSnap i)).2),
        Event.log LogMsg.memScenarioCompleted]) ∧
    ((_run_network_chaos_scenario env hasV d).2.all
      fun e => !(isPressureCheckEvent e)) = true ∧
    (_run_cpu_stress_scenario rm env d).1 = true := by
  refine ⟨?_, ?_, ?_⟩
  · simp [memIters, hp]
  · have h := netIters_no_pressure_events env hasV (List.range (Int.fdiv d 5).toNat)
    simp [isPressureCheckEvent] at h
    simp [_run_network_chaos_scenario, isPressureCheckEvent]
    exact h
  · simp [_run_cpu_stress_scenario, hc]

/-- Witness for the amended C2 at a concrete input: pressure detected on
iteration 0 of envP, cpu exception absent, and the instantiated
conclusion. -/
theorem c2_pressure_abort_witness :
    ((check_resource_pressure rm0 (envP.pressureSnap 0)).1 = true ∧
      envP.cpuRaises = false) ∧
    (memIters rm0 envP true [0] =
      (true,
       [Event.pressureCheck true,
        Event.log (LogMsg.pressureDetected (check_resource_pressure rm0 (envP.pressureSnap 0)).2),
        Event.log LogMsg.memScenarioCompleted]) ∧
    ((_run_network_chaos_scenario envP true 10).2.all
      fun e => !(isPressureCheckEvent e)) = true ∧
    (_run_cpu_stress_scenario rm0 envP 10).1 = true) :=
  ⟨by decide,
   c2_pressure_abort_amended rm0 envP true 0 [] 10 (by decide) (by decide)⟩

/-- Counterexample to claim C3 as stated: in a cpu_stress scenario with
the validator dead at every poll (concrete envDead, duration 30), the
strategy performs no health check whatsoever and returns true instead
of returning false immediately. -/
theorem c3_health_check_counterexample :
    (_run_cpu_stress_scenario rm0 envDead 30).1 = true ∧
    ((_run_cpu_stress_scenario rm0 envDead 30).2.all
      fun e => !(isHealthCheckEvent e)) = true := by
  decide

theorem msIters_no_health_events (rm : ResourceMonitor) (env : Env)
    (interval : ℤ) (l : List ℕ) :
    ((msIters rm env interval l).2.all fun e => !(isHealthCheckEvent e)) = true := by
  induction l with
  | nil => rfl
  | cons i rest ih =>
    by_cases hp : (check_resource_pressure rm (env.msSnap i)).1 = true <;>
    by_cases ha : env.msAvail i < 256 <;>
      simp [msIters, hp, ha, isHealthCheckEvent] at ih ⊢ <;> exact ih

theorem monitor_no_health_events (rm : ResourceMonitor) (env : Env) (d : ℤ) :
    ((monitor_stress_test rm env d).2.all fun e => !(isHealthCheckEvent e)) = true := by
  have h := msIters_no_health_events rm env (min 30 (Int.fdiv d 10))
    (List.range env.msIterCount)
  simp [isHealthCheckEvent] at h
  simp [monitor_stress_test, isHealthCheckEvent]
  exact h

/-- Claim C3 amended: the memory_pressure strategy polls validator
health once per iteration, but as the second step (after the pressure
check), and the network_chaos strategy polls it after its resource log;
both return false immediately when the process has exited. The
cpu_stress strategy performs no health check at all and returns true
even when the process is dead. -/
theorem c3_health_check_amended (rm : ResourceMonitor) (env : Env)
    (i : ℕ) (rest : List ℕ) (d : ℤ)
    (hnp : (check_resource_pressure rm (env.pressureSnap i)).1 = false)
    (hdead : env.exitedAt i = true)
    (hnd : env.netExitedAt i = true) :
    memIters rm env true (i :: rest) =
      (false, [Event.pressureCheck false, Event.healthCheck true,
               Event.log LogMsg.validatorDied]) ∧
    netIters env true (i :: rest) =
      (false, [Event.resourceLog (RLTag.netStep (i + 1)), Event.healthCheck true,
               Event.log LogMsg.validatorDiedNetwork]) ∧
    ((_run_cpu_stress_scenario rm env d).2.all
      fun e => !(isHealthCheckEvent e)) = true := by
  refine ⟨?_, ?_, ?_⟩
  · simp [memIters, hnp, hdead]
  · simp [netIters, hnd]
  · have h := monitor_no_health_events rm env d
    simp [isHealthCheckEvent] at h
    by_cases hc : env.cpuRaises = true <;>
    by_cases hs : env.stressNg = true <;>
      simp [_run_cpu_stress_scenario, hc, hs, isHealthCheckEvent] <;>
      exact h

/-- Witness for the amended C3 at a concrete input: envDead at iteration
0 (no pressure, validator dead on both pollers) and the instantiated
conclusion. -/
theorem c3_health_check_witness :
    ((check_resource_pressure rm0 (envDead.pressureSnap 0)).1 = false ∧
      envDead.exitedAt 0 = true ∧ envDead.netExitedAt 0 = true) ∧
    (memIters rm0 envDead true [0] =
      (false, [Event.pressureCheck false, Event.healthCheck true,
               Event.log LogMsg.validatorDied]) ∧
    netIters envDead true [0] =
      (false, [Event.resourceLog (RLTag.netStep 1), Event.healthCheck true,
               Event.log LogMsg.validatorDiedNetwork]) ∧
    ((_run_cpu_stress_scenario rm0 envDead 30).2.all
      fun e => !(isHealthCheckEvent e)) = true) :=
  ⟨by decide,
   c3_health_check_amended rm0 envDead 0 [] 30 (by decide) (by decide) (by decide)⟩

theorem run_outcome_iff (rm : ResourceMonitor) (env : Env)
    (scenario_type : String) (duration : ℤ) :
    (run_enhanced_chaos_test rm env scenario_type duration).outcome = Except.ok true ↔
      (pre_flight_checks env).1 = Except.ok true ∧
      (start_validator_with_monitoring env).1 = true ∧
      (run_chaos_scenario rm env (start_validator_with_monitoring env).2.1.isSome
        scenario_type duration).1 = true := by
  unfold run_enhanced_chaos_test
  split
  · rename_i e pfEv heq
    simp [finallyStop, heq]
  · rename_i pfEv heq
    simp [finallyStop, heq]
  · rename_i pfEv heq
    split
    · rename_i vp stEv heq2
      simp [finallyStop, heq, heq2]
    · rename_i vp stEv heq2
      simp [finallyStop, heq, heq2]

/-- Counterexample to claim C5 as stated: a run terminated by an
external interrupt exits with status 0 (the handler calls sys.exit(0)),
even at a concrete input where the run had not succeeded (pre-flight
health check failing), whereas the claim requires interrupt-terminated
runs to count as aborts and not exit 0. -/
theorem c5_exit_code_counterexample :
    pyMain rm0 envPre true "memory_pressure" 60 true = 0 ∧
    (run_enhanced_chaos_test rm0 envPre "memory_pressure" 60).outcome ≠
      Except.ok true := by
  refine ⟨rfl, ?_⟩
  have h : (run_enhanced_chaos_test rm0 envPre "memory_pressure" 60).outcome =
      Except.ok false := rfl
  simp [h]

/-- Claim C5 amended: for runs not terminated by an interrupt, the exit
status is 0 iff pre-flight passed, the validator started, and the
scenario strategy returned true (note a pressure-aborted
memory_pressure scenario returns true and therefore exits 0); a usage
error exits 1; but a run terminated by an external interrupt exits 0
unconditionally from the signal handler. -/
theorem c5_exit_code_amended (rm : ResourceMonitor) (env : Env)
    (scenario_type : String) (duration : ℤ) :
    (pyMain rm env true scenario_type duration false = 0 ↔
      (pre_flight_checks env).1 = Except.ok true ∧
      (start_validator_with_monitoring env).1 = true ∧
      (run_chaos_scenario rm env (start_validator_with_monitoring env).2.1.isSome
        scenario_type duration).1 = true) ∧
    pyMain rm env true scenario_type duration true = 0 ∧
    pyMain rm env false scenario_type duration false = 1 ∧
    pyMain rm env false scenario_type duration true = 1 := by
  refine ⟨?_, rfl, rfl, rfl⟩
  rw [← run_outcome_iff rm env scenario_type duration]
  unfold pyMain
  rcases h : (run_enhanced_chaos_test rm env scenario_type duration).outcome with e | b
  · simp [h]
  · cases b <;> simp [h]

theorem toNat_fdiv_ten_zero {d : ℤ} (h : d < 10) : (Int.fdiv d 10).toNat = 0 := by
  rw [Int.fdiv_eq_ediv _ (by omega)]
  omega

theorem toNat_fdiv_five_zero {d : ℤ} (h : d < 5) : (Int.fdiv d 5).toNat = 0 := by
  rw [Int.fdiv_eq_ediv _ (by omega)]
  omega

/-- Claim C10: a memory_pressure scenario with duration strictly below
10 and a network_chaos scenario with duration strictly below 5 execute
zero loop iterations (range of the floor division is empty, also for
negative durations) and return true without a single health check,
pressure check, headroom check or resource log. -/
theorem c10_zero_iterations (rm : ResourceMonitor) (env : Env) (hasV : Bool)
    (dm dn : ℤ) (hm : dm < 10) (hn : dn < 5) :
    ((_run_memory_pressure_scenario rm env hasV dm).1 = true ∧
     ((_run_memory_pressure_scenario rm env hasV dm).2.all
        fun e => !(isMonitoringEvent e)) = true) ∧
    ((_run_network_chaos_scenario env hasV dn).1 = true ∧
     ((_run_network_chaos_scenario env hasV dn).2.all
        fun e => !(isMonitoringEvent e)) = true) := by
  have h1 : (Int.fdiv dm 10).toNat = 0 := toNat_fdiv_ten_zero hm
  have h2 : (Int.fdiv dn 5).toNat = 0 := toNat_fdiv_five_zero hn
  refine ⟨⟨?_, ?_⟩, ⟨?_, ?_⟩⟩ <;>
    simp [_run_memory_pressure_scenario, _run_network_chaos_scenario,
      h1, h2, memIters, netIters, isMonitoringEvent]

/-- Witness for C10 at concrete durations 7 and 3. -/
theorem c10_zero_iterations_witness :
    ((7 : ℤ) < 10 ∧ (3 : ℤ) < 5) ∧
    (((_run_memory_pressure_scenario rm0 env0 true 7).1 = true ∧
      ((_run_memory_pressure_scenario rm0 env0 true 7).2.all
         fun e => !(isMonitoringEvent e)) = true) ∧
     ((_run_network_chaos_scenario env0 true 3).1 = true ∧
      ((_run_network_chaos_scenario env0 true 3).2.all
         fun e => !(isMonitoringEvent e)) = true)) :=
  ⟨by decide, c10_zero_iterations rm0 env0 true 7 3 (by decide) (by decide)⟩

/-- Witness for C1 at a concrete input (benign environment, memory
scenario, duration 60). -/
theorem c1_shutdown_always_invoked_witness :
    Event.stopCalled ∈ (run_enhanced_chaos_test rm0 env0 "memory_pressure" 60).events ∧
    Option.all (fun h => !h.alive)
      (run_enhanced_chaos_test rm0 env0 "memory_pressure" 60).vp = true :=
  c1_shutdown_always_invoked rm0 env0 "memory_pressure" 60

/-- Witness for the amended C4 at concrete query results. -/
theorem c4_metrics_failure_witness :
    check_resource_pressure_os rm0
        ⟨Except.error ⟨"q"⟩, Except.ok ⟨10⟩, Except.ok ⟨40⟩⟩ = Except.error ⟨"q"⟩ ∧
    check_resource_pressure_os rm0
        ⟨Except.ok memOkInfo, Except.error ⟨"q"⟩, Except.ok ⟨40⟩⟩ = Except.error ⟨"q"⟩ ∧
    check_resource_pressure_os rm0
        ⟨Except.ok memOkInfo, Except.ok ⟨10⟩, Except.error ⟨"q"⟩⟩ = Except.error ⟨"q"⟩ :=
  c4_metrics_failure_amended rm0 ⟨"q"⟩ (Except.ok ⟨10⟩) (Except.ok ⟨40⟩) memOkInfo ⟨10⟩

/-- Witness for the amended C5 at a concrete input. -/
theorem c5_exit_code_witness :
    (pyMain rm0 env0 true "memory_pressure" 60 false = 0 ↔
      (pre_flight_checks env0).1 = Except.ok true ∧
      (start_validator_with_monitoring env0).1 = true ∧
      (run_chaos_scenario rm0 env0 (start_validator_with_monitoring env0).2.1.isSome
        "memory_pressure" 60).1 = true) ∧
    pyMain rm0 env0 true "memory_pressure" 60 true = 0 ∧
    pyMain rm0 env0 false "memory_pressure" 60 false = 1 ∧
    pyMain rm0 env0 false "memory_pressure" 60 true = 1 :=
  c5_exit_code_amended rm0 env0 "memory_pressure" 60

/-- Witness for the amended C6 at a concrete reaped handle. -/
theorem c6_stop_idempotence_witness :
    (stop_validator se0 (some ⟨false, some 0⟩)).1 = some ⟨false, some 0⟩ ∧
    (stop_validator se0 (some ⟨false, some 0⟩)).2 =
      [Event.stopCalled, Event.log LogMsg.stoppingValidator,
       Event.log LogMsg.stoppedGracefully, Event.resourceLog RLTag.afterShutdown] ∧
    Event.sigTerm ∉ (stop_validator se0 (some ⟨false, some 0⟩)).2 ∧
    Event.sigKill ∉ (stop_validator se0 (some ⟨false, some 0⟩)).2 :=
  c6_stop_idempotence_amended se0 0

/-- Witness for C7 at a concrete snapshot that breaches only the
memory threshold. -/
theorem c7_pressure_exact_set_witness :
    ((check_resource_pressure rm0 snapHighMem).1 = true ↔
      ∃ m : Metric, observed snapHighMem m > threshold rm0 m) ∧
    (∀ m : Metric,
      (⟨m, observed snapHighMem m⟩ : Issue) ∈ (check_resource_pressure rm0 snapHighMem).2 ↔
        observed snapHighMem m > threshold rm0 m) ∧
    (∀ iss ∈ (check_resource_pressure rm0 snapHighMem).2,
      iss.value = observed snapHighMem iss.metric ∧
        observed snapHighMem iss.metric > threshold rm0 iss.metric) :=
  c7_pressure_exact_set rm0 snapHighMem

/-- Witness for C8 at a concrete monitor, requirement and sample. -/
theorem c8_headroom_iff_witness :
    ((rm0.ensure_memory_headroom (some 512) memOkInfo).1 = true ↔
      (512 : ℚ) ≤ memOkInfo.available_mb) ∧
    ((rm0.ensure_memory_headroom (some 512) memOkInfo).1 = false ↔
      memOkInfo.available_mb < 512) ∧
    (rm0.ensure_memory_headroom (some 512) memOkInfo).2.available_mb =
      memOkInfo.available_mb ∧
    (rm0.ensure_memory_headroom (some 512) memOkInfo).2.required_mb = 512 :=
  c8_headroom_iff rm0 512 memOkInfo

/-- Witness for the amended C9 at a concrete environment, handle and
signal number. -/
theorem c9_handler_witness :
    Event.stopCalled ∈ (signal_handler se0 none 2).2.1 ∧
    (signal_handler se0 none 2).2.2 = 0 ∧
    Event.sigTerm ∈ (signal_handler se0 (some ⟨true, none⟩) 2).2.1 :=
  c9_handler_amended se0 none 2

end SlonanaChaos
